import Mathlib

/-!
Shallow embedding of the laravel-session-sdk core: the cookie decryptor
(`SessionDecoder.decrypt`), the session-payload extraction helpers
(`SessionDecoder.getUserId`, `getPermissions`, `is2FAVerified`,
`getCsrfToken`), the validation state machine (`SessionValidator.validate`),
the client-side cookie unwrapping (`LaravelSessionClient.validateSession`)
and the relational store's role delegation (`DatabaseStore.getUserRole`).

JavaScript dynamic values are modelled by `JsValue`; JavaScript truthiness
and strict equality against primitive literals are modelled explicitly,
because the source relies on them (`if (!permissions)`, `=== 1`,
`=== 'true'`, `|| null`).  Asynchronous store calls and the base64 / JSON /
crypto primitives that the claims do not inspect are passed in as explicit
function parameters, so every theorem quantifies over their behaviour.
-/

namespace LaravelSession

/-- A JavaScript runtime value as it appears in decoded session data:
`vUndefined` is `undefined`, `vArr` is an object (ordered own-property list). -/
inductive JsValue where
  | vNull
  | vUndefined
  | vBool (b : Bool)
  | vInt (n : Int)
  | vStr (s : String)
  | vArr (fields : List (String × JsValue))
deriving Repr

/-- JavaScript truthiness of a value (`if (x)`). -/
def jsTruthy : JsValue → Bool
  | .vNull => false
  | .vUndefined => false
  | .vBool b => b
  | .vInt n => n != 0
  | .vStr s => s != ""
  | .vArr _ => true

/-- JavaScript strict equality `x === s` against a string literal. -/
def jsEqStr : JsValue → String → Bool
  | .vStr s, t => s == t
  | _, _ => false

/-- JavaScript strict equality `x === n` against a number literal. -/
def jsEqInt : JsValue → Int → Bool
  | .vInt m, n => m == n
  | _, _ => false

/-- `x === undefined || x === null`. -/
def jsIsNullOrUndefined : JsValue → Bool
  | .vNull => true
  | .vUndefined => true
  | _ => false

/-- `typeof x === 'object'` for the values this model can produce
(`null` is handled separately by the truthiness guards in the source). -/
def jsIsObject : JsValue → Bool
  | .vArr _ => true
  | _ => false

/-- Property read `obj[k]` on an object value; `undefined` when the key is
absent or the value is not an object. -/
def jsField : JsValue → String → JsValue
  | .vArr fields, k => (fields.lookup k).getD .vUndefined
  | _, _ => .vUndefined

/-- `k in obj`. -/
def jsHasKey : JsValue → String → Bool
  | .vArr fields, k => (fields.lookup k).isSome
  | _, _ => false

/-- Decoded session data: a JavaScript object, keys in insertion order. -/
abbrev SessionData := List (String × JsValue)

/-- `sessionData[k]` (`undefined` when absent). -/
def jsIndex (d : SessionData) (k : String) : JsValue :=
  (d.lookup k).getD .vUndefined

/-- `s.startsWith(p)` on JavaScript strings. -/
def jsStartsWith (s p : String) : Bool :=
  p.data.isPrefixOf s.data

/-- `String.prototype.split(sep)` for a one-character separator, on the
character list of the string.  `split` never returns an empty list. -/
def jsSplit (sep : Char) : List Char → List (List Char)
  | [] => [[]]
  | c :: rest =>
    if c = sep then
      [] :: jsSplit sep rest
    else
      match jsSplit sep rest with
      | [] => [[c]]
      | s :: ss => (c :: s) :: ss

/-- `SessionDecoder.getUserId`: find the first key of the session data that
starts with `login_web_` and return its value; `null` when no key matches. -/
def getUserId (d : SessionData) : JsValue :=
  match d.find? (fun kv => jsStartsWith kv.fst "login_web_") with
  | Option.none => .vNull
  | some kv => kv.snd

/-- `SessionDecoder.getCsrfToken`: `sessionData._token || null`. -/
def getCsrfToken (d : SessionData) : JsValue :=
  if jsTruthy (jsIndex d "_token") then jsIndex d "_token" else .vNull

/-- `SessionDecoder.is2FAVerified`: `sessionData['2faVerify'] === 'true'`. -/
def is2FAVerified (d : SessionData) : Bool :=
  jsEqStr (jsIndex d "2faVerify") "true"

/-- The decoder's configured permissions key: absent, a single string, or an
array of strings (`permissionsKey?: string | string[]`). -/
inductive PermCfg where
  | noKey
  | single (k : String)
  | multi (ks : List String)

/-- Truthiness of `this.permissionsKey` (an empty string is falsy, an empty
array is truthy). -/
def permCfgTruthy : PermCfg → Bool
  | .noKey => false
  | .single k => k != ""
  | .multi _ => true

/-- `Array.isArray(this.permissionsKey) ? this.permissionsKey : [this.permissionsKey]`. -/
def permCfgKeys : PermCfg → List String
  | .noKey => []
  | .single k => [k]
  | .multi ks => ks

/-- Inner loop of `SessionDecoder.getNestedValue`: walk the dot-separated
path; a missing or non-object step returns `null`. -/
def nestedWalk : List String → JsValue → JsValue
  | [], v => v
  | k :: ks, v =>
    if jsTruthy v ∧ jsIsObject v = true ∧ jsHasKey v k = true then
      nestedWalk ks (jsField v k)
    else
      .vNull

/-- `SessionDecoder.getNestedValue(obj, path)`: dot-notation lookup. -/
def getNestedValue (obj : JsValue) (path : String) : JsValue :=
  nestedWalk ((jsSplit '.' path.data).map List.asString) obj

/-- The fixed list of conventional permission keys probed by
`SessionDecoder.getPermissions` when no custom key is configured. -/
def permissionKeys : List String :=
  ["permissions", "user_permissions", "auth_permissions",
   "laravel_permissions", "role_permissions", "access_permissions"]

/-- Fallback scan of `SessionDecoder.getPermissions`: probe the conventional
keys, then `user.permissions`, then `auth.permissions`; `null` on no hit. -/
def commonPermissions (d : SessionData) : JsValue :=
  match permissionKeys.find? (fun k => jsTruthy (jsIndex d k)) with
  | some k => jsIndex d k
  | Option.none =>
    if jsTruthy (jsIndex d "user") ∧ jsIsObject (jsIndex d "user") = true
        ∧ jsTruthy (jsField (jsIndex d "user") "permissions") then
      jsField (jsIndex d "user") "permissions"
    else if jsTruthy (jsIndex d "auth") ∧ jsIsObject (jsIndex d "auth") = true
        ∧ jsTruthy (jsField (jsIndex d "auth") "permissions") then
      jsField (jsIndex d "auth") "permissions"
    else
      .vNull

/-- `SessionDecoder.getPermissions`: when a custom permissions key is
configured (and truthy), collect each configured path whose nested value is
neither `undefined` nor `null`; if any was found, return the single value
directly (one configured key) or an object of all found paths (several).
Otherwise fall back to the conventional-key scan. -/
def getPermissions (cfg : PermCfg) (d : SessionData) : JsValue :=
  if permCfgTruthy cfg then
    let keys := permCfgKeys cfg
    let found := keys.filterMap (fun k =>
      let v := getNestedValue (.vArr d) k
      if jsIsNullOrUndefined v then Option.none else some (k, v))
    if found.isEmpty then
      commonPermissions d
    else
      if keys.length = 1 ∧ (found.lookup (keys.getD 0 "")).isSome then
        (found.lookup (keys.getD 0 "")).getD .vNull
      else
        .vArr found
  else
    commonPermissions d

/-- A row of the sessions table as the validator sees it. -/
structure SessionRecord where
  user_id : Option Int
  payload : String
  last_activity : Int

/-- The columns of the user row that `SessionValidator.validate` inspects
(`session_id` and `google2fa_enable` are kept as dynamic values because the
source compares them with `!==` / `===` against literals). -/
structure LaravelUser where
  session_id : JsValue
  google2fa_enable : JsValue
deriving Repr

/-- The store interface as consumed by the validator: each method is an
asynchronous call that can reject (`Except.error`). -/
structure Store where
  getSession : String → Except String (Option SessionRecord)
  getUser : JsValue → Except String (Option LaravelUser)
  getUserRole : JsValue → Except String (Option String)
  getUserPermissions : JsValue → Except String JsValue

/-- `SessionValidationResult`.  Absent optional fields are `Option.none` /
`JsValue.vUndefined`. -/
structure ValidationResult where
  valid : Bool
  user : Option LaravelUser := Option.none
  role : Option String := Option.none
  permissions : JsValue := .vUndefined
  sessionId : Option String := Option.none
  csrfToken : JsValue := .vUndefined
  error : Option String := Option.none
  reason : Option String := Option.none
deriving Repr

/-- Gate-failure result of step 1: `{valid:false, error:"No session ID provided"}`. -/
def noSessionIdResult : ValidationResult :=
  { valid := false, error := some "No session ID provided" }

/-- Gate-failure result of step 2: `{valid:false, error:"Session not found"}`. -/
def sessionNotFoundResult : ValidationResult :=
  { valid := false, error := some "Session not found" }

/-- Gate-failure result of step 3: `{valid:false, error:"Session expired"}`. -/
def expiredResult : ValidationResult :=
  { valid := false, error := some "Session expired" }

/-- Gate-failure result of step 4 on a decode exception. -/
def decodeFailResult : ValidationResult :=
  { valid := false, error := some "Failed to decode session" }

/-- Gate-failure result of step 4 on a null decoded payload. -/
def decodeNullResult : ValidationResult :=
  { valid := false, error := some "Failed to decode session payload" }

/-- Gate-failure result of step 5: `{valid:false, error:"User not authenticated"}`. -/
def notAuthenticatedResult : ValidationResult :=
  { valid := false, error := some "User not authenticated" }

/-- Gate-failure result of step 6: `{valid:false, error:"User not found or deleted"}`. -/
def userNotFoundResult : ValidationResult :=
  { valid := false, error := some "User not found or deleted" }

/-- Gate-failure result of step 8 (single-session enforcement). -/
def singleSessionResult : ValidationResult :=
  { valid := false,
    error := some "Session invalidated. You were logged in elsewhere.",
    reason := some "shooter_single_session" }

/-- Gate-failure result of step 9 (second factor required). -/
def twoFARequiredResult : ValidationResult :=
  { valid := false, error := some "2FA verification required",
    reason := some "2fa_required" }

/-- `config.session.lifetime || 1000` (constructor of `SessionValidator`):
a configured lifetime of `0` is falsy and also falls back to 1000. -/
def resolveLifetime : Option Int → Int
  | Option.none => 1000
  | some l => if l = 0 then 1000 else l

/-- `role: role || undefined` in the success result: an empty-string role is
falsy and is dropped like `null`. -/
def roleOrUndefined : Option String → Option String
  | Option.none => Option.none
  | some s => if s = "" then Option.none else some s

/-- `csrfToken: this.decoder.getCsrfToken(sessionData) || undefined`. -/
def csrfOrUndefined (d : SessionData) : JsValue :=
  if jsTruthy (getCsrfToken d) then getCsrfToken d else .vUndefined

/-- Permission value produced by step 10 of `SessionValidator.validate`:
the session-payload extraction when truthy, otherwise the store fallback,
whose error is swallowed to `null`. -/
def resolvedPermissions (cfg : PermCfg) (store : Store) (uid : JsValue)
    (data : SessionData) : JsValue :=
  if jsTruthy (getPermissions cfg data) then
    getPermissions cfg data
  else
    match store.getUserPermissions uid with
    | Except.ok p => p
    | Except.error _ => .vNull

/-- The success result assembled at step 11 of `SessionValidator.validate`. -/
def successResult (user : LaravelUser) (role : Option String)
    (permissions : JsValue) (data : SessionData) (sid : String) :
    ValidationResult :=
  { valid := true, user := some user, role := roleOrUndefined role,
    permissions := permissions, sessionId := some sid,
    csrfToken := csrfOrUndefined data }

/-- Step 10 of `SessionValidator.validate`: permissions from the session
payload first; when that value is falsy, fall back to
`store.getUserPermissions`, swallowing its error to `null`; then assemble
the success result. -/
def validateStep10 (cfg : PermCfg) (store : Store) (uid : JsValue)
    (user : LaravelUser) (role : Option String) (data : SessionData)
    (sid : String) : Except String ValidationResult :=
  Except.ok (successResult user role (resolvedPermissions cfg store uid data) data sid)

/-- Step 9 of `SessionValidator.validate`: the second-factor gate
(`user.google2fa_enable === 1` and the decoded session not 2FA-verified). -/
def validateStep9 (cfg : PermCfg) (store : Store) (uid : JsValue)
    (user : LaravelUser) (role : Option String) (data : SessionData)
    (sid : String) : Except String ValidationResult :=
  if jsEqInt user.google2fa_enable 1 ∧ is2FAVerified data = false then
    Except.ok twoFARequiredResult
  else
    validateStep10 cfg store uid user role data sid

/-- Step 8 of `SessionValidator.validate`: single-session enforcement for
the `Shooter` role (`role === 'Shooter' && user.session_id` and
`user.session_id !== sessionId`). -/
def validateStep8 (cfg : PermCfg) (store : Store) (uid : JsValue)
    (user : LaravelUser) (role : Option String) (data : SessionData)
    (sid : String) : Except String ValidationResult :=
  if role = some "Shooter" ∧ jsTruthy user.session_id
      ∧ jsEqStr user.session_id sid = false then
    Except.ok singleSessionResult
  else
    validateStep9 cfg store uid user role data sid

/-- Steps 6–7 of `SessionValidator.validate`: user lookup (absent row is a
gate failure) and role lookup (errors of either call propagate). -/
def validateStep6 (cfg : PermCfg) (store : Store) (data : SessionData)
    (sid : String) (uid : JsValue) : Except String ValidationResult :=
  match store.getUser uid with
  | Except.error e => Except.error e
  | Except.ok Option.none =>
    Except.ok userNotFoundResult
  | Except.ok (some user) =>
    match store.getUserRole uid with
    | Except.error e => Except.error e
    | Except.ok role => validateStep8 cfg store uid user role data sid

/-- Step 5 of `SessionValidator.validate`: identity extraction
(`if (!userId)`). -/
def validateStep5 (cfg : PermCfg) (store : Store) (data : SessionData)
    (sid : String) : Except String ValidationResult :=
  let uid := getUserId data
  if jsTruthy uid then
    validateStep6 cfg store data sid uid
  else
    Except.ok notAuthenticatedResult

/-- `SessionValidator.validate`, steps 1–4 (input check, store lookup,
expiry check, payload decode) chaining into the later gates.  `decode` is
the decoder's base64 + PHP-unserialize pipeline, passed as a function;
`lifetimeCfg` is `config.session.lifetime`. -/
def validate (decode : String → Except String (Option SessionData))
    (cfg : PermCfg) (store : Store) (now : Int) (lifetimeCfg : Option Int)
    (sid : String) : Except String ValidationResult :=
  if sid = "" then
    Except.ok noSessionIdResult
  else
    match store.getSession sid with
    | Except.error e => Except.error e
    | Except.ok Option.none =>
      Except.ok sessionNotFoundResult
    | Except.ok (some session) =>
      if now - session.last_activity > resolveLifetime lifetimeCfg * 60 then
        Except.ok expiredResult
      else
        match decode session.payload with
        | Except.error _ =>
          Except.ok decodeFailResult
        | Except.ok Option.none =>
          Except.ok decodeNullResult
        | Except.ok (some data) => validateStep5 cfg store data sid

/-- The parsed encrypted-cookie envelope: `iv` and `value` are the base64
strings exactly as they appear in the JSON, `mac` is the hex tag. -/
structure CookieEnvelope where
  iv : String
  value : String
  mac : String

/-- Body of `SessionDecoder.decrypt` after the envelope has been parsed.
The cryptographic primitives are passed in: `hmacHex key msg` is the
hex-encoded HMAC-SHA256, `b64decode` is `Buffer.from(_, 'base64')`,
`cipherDec key iv ct` is the AES-256-CBC decryption (which can fail on bad
padding), `toStr` is `Buffer.prototype.toString`, and `phpStrUnwrap` models
the `s:<len>:"..."; ` regex unwrapping (`some` exactly when the regex
matches with a truthy capture).  The MAC is recomputed over the
concatenation of the two base64 **strings**, not the decoded bytes. -/
def decryptEnvelope (hmacHex : List Nat → String → String)
    (b64decode : String → List Nat)
    (cipherDec : List Nat → List Nat → List Nat → Except String (List Nat))
    (toStr : List Nat → String)
    (phpStrUnwrap : String → Option String)
    (appKey : List Nat) (payload : CookieEnvelope) : Except String String :=
  let iv := b64decode payload.iv
  let value := b64decode payload.value
  let calculatedMac := hmacHex appKey (payload.iv ++ payload.value)
  if calculatedMac ≠ payload.mac then
    Except.error "MAC verification failed - calculated MAC does not match"
  else
    match cipherDec appKey iv value with
    | Except.error e => Except.error e
    | Except.ok decryptedBytes =>
      let result := toStr decryptedBytes
      if jsStartsWith result "s:" then
        match phpStrUnwrap result with
        | some inner => Except.ok inner
        | Option.none => Except.ok result
      else
        Except.ok result

/-- `SessionDecoder.decrypt` on a parsed envelope: any error thrown inside
the body is caught and rethrown as `Decryption failed: ...`. -/
def decrypt (hmacHex : List Nat → String → String)
    (b64decode : String → List Nat)
    (cipherDec : List Nat → List Nat → List Nat → Except String (List Nat))
    (toStr : List Nat → String)
    (phpStrUnwrap : String → Option String)
    (appKey : List Nat) (payload : CookieEnvelope) : Except String String :=
  match decryptEnvelope hmacHex b64decode cipherDec toStr phpStrUnwrap appKey payload with
  | Except.error e => Except.error ("Decryption failed: " ++ e)
  | Except.ok r => Except.ok r

/-- The pipe-splitting step of `LaravelSessionClient.validateSession`: when
the decrypted value contains `|`, replace it by `parts[1]` of its split. -/
def clientExtract (d : String) : String :=
  if d.data.contains '|' then
    ((jsSplit '|' d.data).map List.asString).getD 1 ""
  else
    d

/-- The session id that `LaravelSessionClient.validateSession` hands to the
validator: when an app key is configured (truthy), try `decryptFn`; a
thrown error or a falsy decrypted value leaves the original cookie value in
place; a truthy decrypted value replaces it, after pipe extraction. -/
def finalSessionId (decryptFn : String → Except String (Option String))
    (appKey : Option String) (sessionId : String) : String :=
  match appKey with
  | Option.none => sessionId
  | some k =>
    if k = "" then
      sessionId
    else
      match decryptFn sessionId with
      | Except.error _ => sessionId
      | Except.ok Option.none => sessionId
      | Except.ok (some d) => if d = "" then sessionId else clientExtract d

/-- `LaravelSessionClient.validateSession`: decrypt / unwrap the cookie and
delegate to `SessionValidator.validate` (here an abstract `validateFn`). -/
def validateSession (decryptFn : String → Except String (Option String))
    (validateFn : String → Except String ValidationResult)
    (appKey : Option String) (sessionId : String) :
    Except String ValidationResult :=
  validateFn (finalSessionId decryptFn appKey sessionId)

/-- Optional chaining `permissions?.role`. -/
def optionalRoleField (perms : JsValue) : JsValue :=
  if jsIsNullOrUndefined perms then .vUndefined else jsField perms "role"

/-- `DatabaseStore.getUserRole`: delegate to `getUserPermissions` (passed in
as the function `gup`) and return `permissions?.role || null`; an error is
rethrown with a wrapping message. -/
def dbGetUserRole (gup : JsValue → Except String JsValue) (uid : JsValue) :
    Except String JsValue :=
  match gup uid with
  | Except.error e => Except.error ("Failed to get user role: " ++ e)
  | Except.ok perms =>
    Except.ok (if jsTruthy (optionalRoleField perms) then optionalRoleField perms else .vNull)

/-- A store differing from `store` only in its database permission
fallback method (used to express "the fallback is never invoked"). -/
def storeWithGup (store : Store) (g : JsValue → Except String JsValue) : Store :=
  { store with getUserPermissions := g }

/-! ## Concrete inputs for witnesses and counterexamples -/

/-- A user row with no session-affinity token and second factor disabled. -/
def wUser : LaravelUser := { session_id := .vNull, google2fa_enable := .vInt 0 }

/-- A `Shooter` user row whose session-affinity token is the empty string. -/
def wShooterEmptyUser : LaravelUser := { session_id := .vStr "", google2fa_enable := .vInt 0 }

/-- A `Shooter` user row whose session-affinity token is another session id. -/
def wShooterOtherUser : LaravelUser := { session_id := .vStr "other", google2fa_enable := .vInt 0 }

/-- A user row with the second factor enabled (`google2fa_enable = 1`). -/
def wTwoFAUser : LaravelUser := { session_id := .vNull, google2fa_enable := .vInt 1 }

/-- A stored session row. -/
def wSession : SessionRecord := { user_id := some 42, payload := "PAY", last_activity := 100 }

/-- A decoded payload with an auth key and a CSRF token. -/
def wData : SessionData := [("login_web_59ba", .vInt 42), ("_token", .vStr "tok123")]

/-- A decoded payload whose custom permission key `p` holds the falsy value `0`. -/
def wDataP : SessionData := [("login_web_59ba", .vInt 42), ("p", .vInt 0)]

/-- A decoded payload that is 2FA-verified (string literal `"true"`). -/
def wData2FA : SessionData := [("login_web_59ba", .vInt 42), ("2faVerify", .vStr "true")]

/-- A decoded payload whose auth key maps to the falsy value `0`. -/
def wDataFalsyUid : SessionData := [("login_web_59ba", .vInt 0)]

/-- A decoded payload with no `login_web_` key at all. -/
def wDataNoAuth : SessionData := [("_token", .vStr "tok123")]

/-- A decoder pipeline that decodes every payload to `d`. -/
def mkDecode (d : SessionData) : String → Except String (Option SessionData) :=
  fun _ => Except.ok (some d)

/-- A store that returns `wSession`, the given user row, role and
permission-fallback outcome. -/
def mkStore (user : Option LaravelUser) (role : Option String)
    (gup : Except String JsValue) : Store :=
  { getSession := fun _ => Except.ok (some wSession),
    getUser := fun _ => Except.ok user,
    getUserRole := fun _ => Except.ok role,
    getUserPermissions := fun _ => gup }

/-- Basic store: ordinary user, role `Admin`, fallback permissions from DB. -/
def wStoreA : Store := mkStore (some wUser) (some "Admin") (Except.ok (.vStr "dbperms"))

/-- Store for the single-session counterexample: `Shooter` role, empty token. -/
def wStoreShooterEmpty : Store :=
  mkStore (some wShooterEmptyUser) (some "Shooter") (Except.ok (.vStr "dbperms"))

/-- Store with a `Shooter` whose token names another session. -/
def wStoreShooterOther : Store :=
  mkStore (some wShooterOtherUser) (some "Shooter") (Except.ok (.vStr "dbperms"))

/-- Store whose user has the second factor enabled. -/
def wStore2FA : Store := mkStore (some wTwoFAUser) (some "Admin") (Except.ok (.vStr "dbperms"))

/-- Store whose permission fallback throws. -/
def wStoreErrPerm : Store := mkStore (some wUser) (some "Admin") (Except.error "db down")

/-- A validator oracle recording which session id it received. -/
def wValidateFn : String → Except String ValidationResult :=
  fun s => Except.ok { valid := true, sessionId := some s }

/-- An envelope whose tag can never match the constant HMAC oracle below. -/
def wEnv : CookieEnvelope := { iv := "i", value := "v", mac := "bb" }

/-- A constant HMAC oracle. -/
def wHmac : List Nat → String → String := fun _ _ => "aa"

/-! ## Helper lemmas -/

theorem jsSplit_of_not_mem (sep : Char) (l : List Char) (h : sep ∉ l) :
    jsSplit sep l = [l] := by
  induction l with
  | nil => rfl
  | cons c rest ih =>
    have hc : ¬ c = sep := fun hc => h (hc ▸ List.mem_cons_self c rest)
    have hrest : sep ∉ rest := fun hr => h (List.mem_cons_of_mem c hr)
    simp only [jsSplit, if_neg hc, ih hrest]

theorem jsSplit_append_sep (sep : Char) (a b : List Char) (ha : sep ∉ a) :
    jsSplit sep (a ++ sep :: b) = a :: jsSplit sep b := by
  induction a with
  | nil => simp [jsSplit]
  | cons c rest ih =>
    have hc : ¬ c = sep := fun hc => ha (hc ▸ List.mem_cons_self c rest)
    have hrest : sep ∉ rest := fun hr => ha (List.mem_cons_of_mem c hr)
    simp only [List.cons_append, jsSplit, if_neg hc, List.append_eq, ih hrest]

theorem asString_ne_empty (l : List Char) (h : l ≠ []) : l.asString ≠ "" := by
  intro he
  exact h (congrArg String.data he)

theorem jsEqStr_eq_true_iff (v : JsValue) (s : String) :
    jsEqStr v s = true ↔ v = JsValue.vStr s := by
  cases v <;> simp [jsEqStr]

theorem validateStep9_ne_singleSession (cfg : PermCfg) (store : Store)
    (uid : JsValue) (user : LaravelUser) (role : Option String)
    (data : SessionData) (sid : String) :
    validateStep9 cfg store uid user role data sid ≠ Except.ok singleSessionResult := by
  unfold validateStep9 validateStep10
  split
  · simp [twoFARequiredResult, singleSessionResult]
  · simp [successResult, singleSessionResult]

theorem validateStep5_ne_expired (cfg : PermCfg) (store : Store)
    (data : SessionData) (sid : String) :
    validateStep5 cfg store data sid ≠ Except.ok expiredResult := by
  unfold validateStep5 validateStep6 validateStep8 validateStep9 validateStep10
  dsimp only
  split
  · split
    · simp
    · simp [userNotFoundResult, expiredResult]
    · split
      · simp
      · split
        · simp [singleSessionResult, expiredResult]
        · split
          · simp [twoFARequiredResult, expiredResult]
          · simp [successResult, expiredResult]
  · simp [notAuthenticatedResult, expiredResult]

theorem validate_reach_step5 (decode : String → Except String (Option SessionData))
    (cfg : PermCfg) (store : Store) (now : Int) (ltc : Option Int) (sid : String)
    (session : SessionRecord) (data : SessionData)
    (hsid : ¬ sid = "")
    (hsess : store.getSession sid = Except.ok (some session))
    (hexp : ¬ now - session.last_activity > resolveLifetime ltc * 60)
    (hdec : decode session.payload = Except.ok (some data)) :
    validate decode cfg store now ltc sid = validateStep5 cfg store data sid := by
  simp only [validate, if_neg hsid, hsess, if_neg hexp, hdec]

theorem validate_reach_step8 (decode : String → Except String (Option SessionData))
    (cfg : PermCfg) (store : Store) (now : Int) (ltc : Option Int) (sid : String)
    (session : SessionRecord) (data : SessionData) (user : LaravelUser)
    (role : Option String)
    (hsid : ¬ sid = "")
    (hsess : store.getSession sid = Except.ok (some session))
    (hexp : ¬ now - session.last_activity > resolveLifetime ltc * 60)
    (hdec : decode session.payload = Except.ok (some data))
    (huid : jsTruthy (getUserId data) = true)
    (huser : store.getUser (getUserId data) = Except.ok (some user))
    (hrole : store.getUserRole (getUserId data) = Except.ok role) :
    validate decode cfg store now ltc sid
      = validateStep8 cfg store (getUserId data) user role data sid := by
  rw [validate_reach_step5 decode cfg store now ltc sid session data hsid hsess hexp hdec]
  simp only [validateStep5, huid, if_true, validateStep6, huser, hrole]

/-! ## Claim theorems -/

/-- C1: for every encrypted cookie envelope and key, `decrypt` recomputes
the authentication tag as an HMAC over the concatenation of the
base64-encoded IV string and base64-encoded ciphertext string as text, and
whenever that recomputed tag differs from the envelope's tag it fails with
a decryption error; the result is then independent of the block-decryption
primitive (and of the base64 decoding of the binary forms), i.e. no block
decryption is performed. -/
theorem claim1_mac_mismatch_fails_before_decryption
    (hmacHex : List Nat → String → String) (b64a b64b : String → List Nat)
    (ca cb : List Nat → List Nat → List Nat → Except String (List Nat))
    (tsa tsb : List Nat → String) (pua pub : String → Option String)
    (appKey : List Nat) (payload : CookieEnvelope)
    (hm : hmacHex appKey (payload.iv ++ payload.value) ≠ payload.mac) :
    decrypt hmacHex b64a ca tsa pua appKey payload
      = Except.error "Decryption failed: MAC verification failed - calculated MAC does not match"
    ∧ decrypt hmacHex b64a ca tsa pua appKey payload
      = decrypt hmacHex b64b cb tsb pub appKey payload := by
  unfold decrypt decryptEnvelope
  dsimp only
  rw [if_pos hm]
  exact ⟨rfl, by rw [if_pos hm]⟩

/-- Witness for C1 at a concrete envelope and oracles. -/
theorem claim1_witness :
    decrypt wHmac (fun _ => []) (fun _ _ _ => Except.ok []) (fun _ => "x")
      (fun _ => Option.none) [1] wEnv
      = Except.error "Decryption failed: MAC verification failed - calculated MAC does not match" :=
  (claim1_mac_mismatch_fails_before_decryption wHmac (fun _ => []) (fun _ => [2])
    (fun _ _ _ => Except.ok []) (fun _ _ _ => Except.error "pad")
    (fun _ => "x") (fun _ => "y") (fun _ => Option.none) (fun _ => Option.none)
    [1] wEnv (by decide)).1

/-- C9: for every app-key configuration, when cookie decryption throws,
`validateSession` swallows the error and validates the original cookie
value unchanged; no `{valid:false}` result is produced by the failure
itself and no exception propagates (the outcome is exactly the
validator's outcome on the original cookie value). -/
theorem claim9_decrypt_failure_uses_original
    (decryptFn : String → Except String (Option String))
    (validateFn : String → Except String ValidationResult)
    (appKey : Option String) (sid e : String)
    (hd : decryptFn sid = Except.error e) :
    validateSession decryptFn validateFn appKey sid = validateFn sid := by
  unfold validateSession finalSessionId
  cases appKey with
  | none => rfl
  | some k =>
    dsimp only
    by_cases hk : k = ""
    · rw [if_pos hk]
    · rw [if_neg hk, hd]

/-- Witness for C9: a failing decryptor leaves the cookie value intact. -/
theorem claim9_witness :
    validateSession (fun _ => Except.error "boom") wValidateFn (some "key") "orig"
      = wValidateFn "orig" :=
  claim9_decrypt_failure_uses_original (fun _ => Except.error "boom") wValidateFn
    (some "key") "orig" "boom" rfl

/-- C7 (amended): when the decrypted cookie value contains a single `|`
separator, the session id handed to the validator is exactly the segment
after the separator and the hash segment before it is discarded; a
NON-EMPTY decrypted value with no separator is used whole (an empty
decrypted value is falsy and leaves the original cookie value in use). -/
theorem claim7_pipe_extraction
    (decryptFn decryptFn2 : String → Except String (Option String))
    (validateFn : String → Except String ValidationResult)
    (k sid : String) (a b : List Char) (s : String) (hk : ¬ k = "") :
    (decryptFn sid = Except.ok (some (a ++ '|' :: b).asString) → '|' ∉ a → '|' ∉ b →
      validateSession decryptFn validateFn (some k) sid = validateFn b.asString)
    ∧ (decryptFn2 sid = Except.ok (some s) → '|' ∉ s.data → ¬ s = "" →
      validateSession decryptFn2 validateFn (some k) sid = validateFn s) := by
  constructor
  · intro hd ha hb
    unfold validateSession finalSessionId
    dsimp only
    rw [if_neg hk, hd]
    dsimp only
    have hne : a ++ '|' :: b ≠ [] := by simp
    rw [if_neg (asString_ne_empty _ hne)]
    unfold clientExtract
    have hcontains : ((a ++ '|' :: b).asString).data.contains '|' = true := by
      show (a ++ '|' :: b).contains '|' = true
      simp
    rw [if_pos hcontains]
    have hsplit : jsSplit '|' ((a ++ '|' :: b).asString).data = [a, b] := by
      show jsSplit '|' (a ++ '|' :: b) = [a, b]
      rw [jsSplit_append_sep '|' a b ha, jsSplit_of_not_mem '|' b hb]
    rw [hsplit]
    rfl
  · intro hd hs hne
    unfold validateSession finalSessionId
    dsimp only
    rw [if_neg hk, hd]
    dsimp only
    rw [if_neg hne]
    unfold clientExtract
    rw [if_neg (by simp [hs])]

/-- C7 counterexample: an empty decrypted value contains no separator, yet
it is not used as the session id — the original cookie value is validated
instead, so "a decrypted value containing no separator is used whole" fails
at the empty string. -/
theorem claim7_counterexample :
    validateSession (fun _ => Except.ok (some "")) wValidateFn (some "key") "orig"
      = wValidateFn "orig"
    ∧ wValidateFn "orig" ≠ wValidateFn "" :=
  ⟨rfl, by simp [wValidateFn]⟩

/-- Witness for C7: `"hash|sid"` validates `"sid"`; `"plain"` validates
itself. -/
theorem claim7_witness :
    (validateSession (fun _ => Except.ok (some "hash|sid")) wValidateFn (some "key") "orig"
      = wValidateFn "sid")
    ∧ (validateSession (fun _ => Except.ok (some "plain")) wValidateFn (some "key") "orig"
      = wValidateFn "plain") := by
  have h := claim7_pipe_extraction (fun _ => Except.ok (some "hash|sid"))
    (fun _ => Except.ok (some "plain")) wValidateFn "key" "orig"
    ['h', 'a', 's', 'h'] ['s', 'i', 'd'] "plain" (by decide)
  exact ⟨h.1 rfl (by decide) (by decide), h.2 rfl (by decide) (by decide)⟩

/-- C3: given a stored session, `validate` returns the "Session expired"
failure exactly when `now - last_activity` is strictly greater than the
configured lifetime times 60 seconds; an age exactly equal to the limit
passes the gate; the lifetime defaults to 1000 minutes when unconfigured. -/
theorem claim3_expiry_boundary (decode : String → Except String (Option SessionData))
    (cfg : PermCfg) (store : Store) (now : Int) (ltc : Option Int) (sid : String)
    (session : SessionRecord)
    (hsid : ¬ sid = "")
    (hsess : store.getSession sid = Except.ok (some session)) :
    (validate decode cfg store now ltc sid = Except.ok expiredResult
      ↔ now - session.last_activity > resolveLifetime ltc * 60)
    ∧ resolveLifetime Option.none = 1000 := by
  refine ⟨⟨fun h => ?_, fun h => ?_⟩, rfl⟩
  · by_contra hc
    simp only [validate, if_neg hsid, hsess, if_neg hc] at h
    cases hd : decode session.payload with
    | error e =>
      rw [hd] at h
      exact (by simp [decodeFailResult, expiredResult] :
        Except.ok decodeFailResult ≠ (Except.ok expiredResult : Except String ValidationResult)) h
    | ok od =>
      cases od with
      | none =>
        rw [hd] at h
        exact (by simp [decodeNullResult, expiredResult] :
          Except.ok decodeNullResult ≠ (Except.ok expiredResult : Except String ValidationResult)) h
      | some data =>
        rw [hd] at h
        exact validateStep5_ne_expired cfg store data sid h
  · simp only [validate, if_neg hsid, hsess, if_pos h]

/-- Witness for C3: with `last_activity = 100` and default lifetime, the
session is not expired at `now = 60100` (age exactly the limit) and the
validation succeeds there, while it is expired at `now = 60101`. -/
theorem claim3_witness :
    (validate (mkDecode wData) PermCfg.noKey wStoreA 60101 Option.none "abc"
        = Except.ok expiredResult
      ↔ (60101 : Int) - 100 > 1000 * 60)
    ∧ resolveLifetime Option.none = 1000 :=
  claim3_expiry_boundary (mkDecode wData) PermCfg.noKey wStoreA 60101 Option.none
    "abc" wSession (by decide) rfl

/-- C2 counterexample: a user whose resolved role is `Shooter` and whose
session-affinity token is the empty string — a non-null value different
from the current session id `"abc"` — is NOT invalidated by the
single-session gate: validation succeeds, contradicting the claim that a
non-null, differing token makes the session invalid. -/
theorem claim2_counterexample :
    wStoreShooterEmpty.getUserRole (.vInt 42) = Except.ok (some "Shooter")
    ∧ wShooterEmptyUser.session_id = JsValue.vStr ""
    ∧ JsValue.vStr "" ≠ JsValue.vNull
    ∧ jsEqStr wShooterEmptyUser.session_id "abc" = false
    ∧ validate (mkDecode wData) PermCfg.noKey wStoreShooterEmpty 200 Option.none "abc"
        = Except.ok (successResult wShooterEmptyUser (some "Shooter") (.vStr "dbperms") wData "abc")
    ∧ (successResult wShooterEmptyUser (some "Shooter") (.vStr "dbperms") wData "abc").valid
        = true :=
  ⟨rfl, rfl, by simp, rfl, rfl, rfl⟩

/-- C2 (amended): for every validation call that reaches the single-session
gate, the result is the "Session invalidated. You were logged in
elsewhere." failure with the `shooter_single_session` reason tag exactly
when the resolved role equals `Shooter`, the user's session-affinity token
is truthy (non-null AND non-empty), and the token is not strictly equal to
the current session id; for any other role (including null), or a falsy
token, the gate does not invalidate. -/
theorem claim2_single_session_gate
    (decode : String → Except String (Option SessionData))
    (cfg : PermCfg) (store : Store) (now : Int) (ltc : Option Int) (sid : String)
    (session : SessionRecord) (data : SessionData) (user : LaravelUser)
    (role : Option String)
    (hsid : ¬ sid = "")
    (hsess : store.getSession sid = Except.ok (some session))
    (hexp : ¬ now - session.last_activity > resolveLifetime ltc * 60)
    (hdec : decode session.payload = Except.ok (some data))
    (huid : jsTruthy (getUserId data) = true)
    (huser : store.getUser (getUserId data) = Except.ok (some user))
    (hrole : store.getUserRole (getUserId data) = Except.ok role) :
    validate decode cfg store now ltc sid = Except.ok singleSessionResult
      ↔ (role = some "Shooter" ∧ jsTruthy user.session_id = true
          ∧ jsEqStr user.session_id sid = false) := by
  rw [validate_reach_step8 decode cfg store now ltc sid session data user role
    hsid hsess hexp hdec huid huser hrole]
  unfold validateStep8
  constructor
  · intro h
    by_contra hc
    rw [if_neg hc] at h
    exact validateStep9_ne_singleSession cfg store (getUserId data) user role data sid h
  · intro h
    rw [if_pos h]

/-- Witness for C2 (amended) at a `Shooter` with a truthy, mismatched
token: the gate fires. -/
theorem claim2_witness :
    validate (mkDecode wData) PermCfg.noKey wStoreShooterOther 200 Option.none "abc"
        = Except.ok singleSessionResult
      ↔ (some "Shooter" = some "Shooter"
          ∧ jsTruthy wShooterOtherUser.session_id = true
          ∧ jsEqStr wShooterOtherUser.session_id "abc" = false) :=
  claim2_single_session_gate (mkDecode wData) PermCfg.noKey wStoreShooterOther
    200 Option.none "abc" wSession wData wShooterOtherUser (some "Shooter")
    (by decide) rfl (by decide) rfl rfl rfl rfl

/-- C5: when every authentication gate has passed and payload permission
extraction was falsy, a throwing store fallback is swallowed: `validate`
still succeeds (`valid = true`) with `null` permissions, and the error does
not propagate (the overall result is `Except.ok`). -/
theorem claim5_fallback_error_degrades
    (decode : String → Except String (Option SessionData))
    (cfg : PermCfg) (store : Store) (now : Int) (ltc : Option Int) (sid : String)
    (session : SessionRecord) (data : SessionData) (user : LaravelUser)
    (role : Option String) (e : String)
    (hsid : ¬ sid = "")
    (hsess : store.getSession sid = Except.ok (some session))
    (hexp : ¬ now - session.last_activity > resolveLifetime ltc * 60)
    (hdec : decode session.payload = Except.ok (some data))
    (huid : jsTruthy (getUserId data) = true)
    (huser : store.getUser (getUserId data) = Except.ok (some user))
    (hrole : store.getUserRole (getUserId data) = Except.ok role)
    (hss : ¬ (role = some "Shooter" ∧ jsTruthy user.session_id = true
        ∧ jsEqStr user.session_id sid = false))
    (h2fa : ¬ (jsEqInt user.google2fa_enable 1 = true ∧ is2FAVerified data = false))
    (hperm : jsTruthy (getPermissions cfg data) = false)
    (hgup : store.getUserPermissions (getUserId data) = Except.error e) :
    validate decode cfg store now ltc sid
      = Except.ok (successResult user role JsValue.vNull data sid)
    ∧ (successResult user role JsValue.vNull data sid).valid = true
    ∧ (successResult user role JsValue.vNull data sid).permissions = JsValue.vNull := by
  refine ⟨?_, rfl, rfl⟩
  rw [validate_reach_step8 decode cfg store now ltc sid session data user role
    hsid hsess hexp hdec huid huser hrole]
  unfold validateStep8
  rw [if_neg hss]
  unfold validateStep9
  rw [if_neg h2fa]
  unfold validateStep10 resolvedPermissions
  rw [hperm]
  simp only [Bool.false_eq_true, if_false, hgup]

/-- Witness for C5: fallback throwing `"db down"` still yields a valid
result with null permissions. -/
theorem claim5_witness :
    validate (mkDecode wData) PermCfg.noKey wStoreErrPerm 200 Option.none "abc"
      = Except.ok (successResult wUser (some "Admin") JsValue.vNull wData "abc")
    ∧ (successResult wUser (some "Admin") JsValue.vNull wData "abc").valid = true
    ∧ (successResult wUser (some "Admin") JsValue.vNull wData "abc").permissions
        = JsValue.vNull :=
  claim5_fallback_error_degrades (mkDecode wData) PermCfg.noKey wStoreErrPerm
    200 Option.none "abc" wSession wData wUser (some "Admin") "db down"
    (by decide) rfl (by decide) rfl rfl rfl rfl (by simp [wUser, jsTruthy])
    (by simp [wUser, jsEqInt, is2FAVerified]) rfl rfl

/-- C6: `is2FAVerified` is true exactly when the fixed key `2faVerify`
holds the exact string `"true"` (a structural boolean or any other value
yields false); the second-factor gate applies only when the user's
`google2fa_enable` flag strictly equals the number 1; when the gate applies
and verification fails, `validate` returns the 2FA-required failure with
its reason tag, and when the flag is not strictly 1 the gate is skipped
entirely. -/
theorem claim6_two_fa_gate
    (decode : String → Except String (Option SessionData))
    (cfg : PermCfg) (store : Store) (now : Int) (ltc : Option Int) (sid : String)
    (session : SessionRecord) (data : SessionData) (user : LaravelUser)
    (role : Option String)
    (hsid : ¬ sid = "")
    (hsess : store.getSession sid = Except.ok (some session))
    (hexp : ¬ now - session.last_activity > resolveLifetime ltc * 60)
    (hdec : decode session.payload = Except.ok (some data))
    (huid : jsTruthy (getUserId data) = true)
    (huser : store.getUser (getUserId data) = Except.ok (some user))
    (hrole : store.getUserRole (getUserId data) = Except.ok role)
    (hss : ¬ (role = some "Shooter" ∧ jsTruthy user.session_id = true
        ∧ jsEqStr user.session_id sid = false)) :
    (∀ d2 : SessionData,
      is2FAVerified d2 = true ↔ jsIndex d2 "2faVerify" = JsValue.vStr "true")
    ∧ (jsEqInt user.google2fa_enable 1 = true → is2FAVerified data = false →
        validate decode cfg store now ltc sid = Except.ok twoFARequiredResult)
    ∧ (jsEqInt user.google2fa_enable 1 = false →
        validate decode cfg store now ltc sid
          = validateStep10 cfg store (getUserId data) user role data sid) := by
  refine ⟨fun d2 => jsEqStr_eq_true_iff (jsIndex d2 "2faVerify") "true",
    fun h1 h2 => ?_, fun h1 => ?_⟩
  · rw [validate_reach_step8 decode cfg store now ltc sid session data user role
      hsid hsess hexp hdec huid huser hrole]
    unfold validateStep8
    rw [if_neg hss]
    unfold validateStep9
    rw [if_pos ⟨h1, h2⟩]
  · rw [validate_reach_step8 decode cfg store now ltc sid session data user role
      hsid hsess hexp hdec huid huser hrole]
    unfold validateStep8
    rw [if_neg hss]
    unfold validateStep9
    rw [if_neg (by simp [h1])]

/-- Witness for C6: a user with `google2fa_enable = 1` and a session without
the `"true"` marker is rejected with the 2FA reason tag. -/
theorem claim6_witness :
    (∀ d2 : SessionData,
      is2FAVerified d2 = true ↔ jsIndex d2 "2faVerify" = JsValue.vStr "true")
    ∧ (jsEqInt wTwoFAUser.google2fa_enable 1 = true → is2FAVerified wData = false →
        validate (mkDecode wData) PermCfg.noKey wStore2FA 200 Option.none "abc"
          = Except.ok twoFARequiredResult)
    ∧ (jsEqInt wTwoFAUser.google2fa_enable 1 = false →
        validate (mkDecode wData) PermCfg.noKey wStore2FA 200 Option.none "abc"
          = validateStep10 PermCfg.noKey wStore2FA (getUserId wData) wTwoFAUser
              (some "Admin") wData "abc") :=
  claim6_two_fa_gate (mkDecode wData) PermCfg.noKey wStore2FA 200 Option.none
    "abc" wSession wData wTwoFAUser (some "Admin")
    (by decide) rfl (by decide) rfl rfl rfl rfl
    (by simp [wTwoFAUser, jsTruthy])

/-- C10: when the first `login_web_`-prefixed key of the decoded session
maps to a falsy value, `validate` fails with "User not authenticated" —
the same result as when no such key exists at all. -/
theorem claim10_falsy_login_key
    (decode decode2 : String → Except String (Option SessionData))
    (cfg : PermCfg) (store : Store) (now : Int) (ltc : Option Int) (sid : String)
    (session : SessionRecord) (data data2 : SessionData) (kv : String × JsValue)
    (hsid : ¬ sid = "")
    (hsess : store.getSession sid = Except.ok (some session))
    (hexp : ¬ now - session.last_activity > resolveLifetime ltc * 60)
    (hdec : decode session.payload = Except.ok (some data))
    (hfind : data.find? (fun kv => jsStartsWith kv.fst "login_web_") = some kv)
    (hfalsy : jsTruthy kv.snd = false)
    (hdec2 : decode2 session.payload = Except.ok (some data2))
    (hfind2 : data2.find? (fun kv => jsStartsWith kv.fst "login_web_") = Option.none) :
    validate decode cfg store now ltc sid = Except.ok notAuthenticatedResult
    ∧ validate decode2 cfg store now ltc sid = Except.ok notAuthenticatedResult := by
  constructor
  · rw [validate_reach_step5 decode cfg store now ltc sid session data
      hsid hsess hexp hdec]
    unfold validateStep5
    have hgid : getUserId data = kv.snd := by
      unfold getUserId
      rw [hfind]
    simp only [hgid, hfalsy, Bool.false_eq_true, if_false]
  · rw [validate_reach_step5 decode2 cfg store now ltc sid session data2
      hsid hsess hexp hdec2]
    unfold validateStep5
    have hgid : getUserId data2 = JsValue.vNull := by
      unfold getUserId
      rw [hfind2]
    simp only [hgid, jsTruthy, Bool.false_eq_true, if_false]

/-- Witness for C10: `login_web_59ba ↦ 0` and a payload with no auth key
both yield "User not authenticated". -/
theorem claim10_witness :
    validate (mkDecode wDataFalsyUid) PermCfg.noKey wStoreA 200 Option.none "abc"
      = Except.ok notAuthenticatedResult
    ∧ validate (mkDecode wDataNoAuth) PermCfg.noKey wStoreA 200 Option.none "abc"
      = Except.ok notAuthenticatedResult :=
  claim10_falsy_login_key (mkDecode wDataFalsyUid) (mkDecode wDataNoAuth)
    PermCfg.noKey wStoreA 200 Option.none "abc" wSession wDataFalsyUid wDataNoAuth
    ("login_web_59ba", JsValue.vInt 0)
    (by decide) rfl (by decide) rfl rfl rfl rfl rfl

/-- C4 counterexample: with the custom permissions key `p` and the payload
value `0`, extraction yields the non-null value `0`, yet the store's
database fallback IS invoked and its value (`"dbperms"`) — not the
extracted `0` — becomes the result's permissions, contradicting the claim
that a non-null extracted value always wins. -/
theorem claim4_counterexample :
    getPermissions (PermCfg.single "p") wDataP = JsValue.vInt 0
    ∧ JsValue.vInt 0 ≠ JsValue.vNull
    ∧ validate (mkDecode wDataP) (PermCfg.single "p") wStoreA 200 Option.none "abc"
        = Except.ok (successResult wUser (some "Admin") (.vStr "dbperms") wDataP "abc")
    ∧ (successResult wUser (some "Admin") (.vStr "dbperms") wDataP "abc").permissions
        = JsValue.vStr "dbperms"
    ∧ JsValue.vStr "dbperms" ≠ JsValue.vInt 0 :=
  ⟨rfl, by simp, rfl, rfl, by simp⟩

/-- C4 (amended): when permission extraction from the decoded payload
yields a TRUTHY value, that value becomes the result's permissions and the
store's database fallback is never invoked (the outcome is unchanged under
any replacement of the fallback method); the fallback is invoked exactly
when extraction yields a falsy value (null, but also 0, false or the empty
string), in which case its value becomes the result's permissions. -/
theorem claim4_payload_precedence
    (decode : String → Except String (Option SessionData))
    (cfg : PermCfg) (store : Store) (now : Int) (ltc : Option Int) (sid : String)
    (session : SessionRecord) (data : SessionData) (user : LaravelUser)
    (role : Option String)
    (hsid : ¬ sid = "")
    (hsess : store.getSession sid = Except.ok (some session))
    (hexp : ¬ now - session.last_activity > resolveLifetime ltc * 60)
    (hdec : decode session.payload = Except.ok (some data))
    (huid : jsTruthy (getUserId data) = true)
    (huser : store.getUser (getUserId data) = Except.ok (some user))
    (hrole : store.getUserRole (getUserId data) = Except.ok role)
    (hss : ¬ (role = some "Shooter" ∧ jsTruthy user.session_id = true
        ∧ jsEqStr user.session_id sid = false))
    (h2fa : ¬ (jsEqInt user.google2fa_enable 1 = true ∧ is2FAVerified data = false)) :
    (jsTruthy (getPermissions cfg data) = true →
      validate decode cfg store now ltc sid
        = Except.ok (successResult user role (getPermissions cfg data) data sid)
      ∧ ∀ g : JsValue → Except String JsValue,
          validate decode cfg (storeWithGup store g) now ltc sid
            = validate decode cfg store now ltc sid)
    ∧ (jsTruthy (getPermissions cfg data) = false →
        ∀ p : JsValue, store.getUserPermissions (getUserId data) = Except.ok p →
          validate decode cfg store now ltc sid
            = Except.ok (successResult user role p data sid)) := by
  have hreduce : ∀ st : Store, st.getSession sid = Except.ok (some session) →
      st.getUser (getUserId data) = Except.ok (some user) →
      st.getUserRole (getUserId data) = Except.ok role →
      validate decode cfg st now ltc sid
        = Except.ok (successResult user role
            (resolvedPermissions cfg st (getUserId data) data) data sid) := by
    intro st hsess' huser' hrole'
    rw [validate_reach_step8 decode cfg st now ltc sid session data user role
      hsid hsess' hexp hdec huid huser' hrole']
    unfold validateStep8
    rw [if_neg hss]
    unfold validateStep9
    rw [if_neg h2fa]
    rfl
  constructor
  · intro ht
    constructor
    · rw [hreduce store hsess huser hrole]
      unfold resolvedPermissions
      rw [if_pos ht]
    · intro g
      rw [hreduce store hsess huser hrole, hreduce (storeWithGup store g) hsess huser hrole]
      unfold resolvedPermissions
      rw [if_pos ht, if_pos ht]
  · intro hf p hp
    rw [hreduce store hsess huser hrole]
    unfold resolvedPermissions
    rw [hf]
    simp only [Bool.false_eq_true, if_false, hp]

/-- Witness for C4 (amended): a truthy payload value (`permissions ↦
"sess"`) wins over the fallback, for any fallback behaviour. -/
theorem claim4_witness :
    (jsTruthy (getPermissions PermCfg.noKey
        [("login_web_59ba", JsValue.vInt 42), ("permissions", JsValue.vStr "sess")]) = true →
      validate (mkDecode [("login_web_59ba", JsValue.vInt 42), ("permissions", JsValue.vStr "sess")])
          PermCfg.noKey wStoreA 200 Option.none "abc"
        = Except.ok (successResult wUser (some "Admin")
            (getPermissions PermCfg.noKey
              [("login_web_59ba", JsValue.vInt 42), ("permissions", JsValue.vStr "sess")])
            [("login_web_59ba", JsValue.vInt 42), ("permissions", JsValue.vStr "sess")] "abc")
      ∧ ∀ g : JsValue → Except String JsValue,
          validate (mkDecode [("login_web_59ba", JsValue.vInt 42), ("permissions", JsValue.vStr "sess")])
              PermCfg.noKey (storeWithGup wStoreA g) 200 Option.none "abc"
            = validate (mkDecode [("login_web_59ba", JsValue.vInt 42), ("permissions", JsValue.vStr "sess")])
                PermCfg.noKey wStoreA 200 Option.none "abc")
    ∧ (jsTruthy (getPermissions PermCfg.noKey
        [("login_web_59ba", JsValue.vInt 42), ("permissions", JsValue.vStr "sess")]) = false →
      ∀ p : JsValue, wStoreA.getUserPermissions (getUserId
          [("login_web_59ba", JsValue.vInt 42), ("permissions", JsValue.vStr "sess")]) = Except.ok p →
        validate (mkDecode [("login_web_59ba", JsValue.vInt 42), ("permissions", JsValue.vStr "sess")])
            PermCfg.noKey wStoreA 200 Option.none "abc"
          = Except.ok (successResult wUser (some "Admin") p
              [("login_web_59ba", JsValue.vInt 42), ("permissions", JsValue.vStr "sess")] "abc")) :=
  claim4_payload_precedence
    (mkDecode [("login_web_59ba", JsValue.vInt 42), ("permissions", JsValue.vStr "sess")])
    PermCfg.noKey wStoreA 200 Option.none "abc" wSession
    [("login_web_59ba", JsValue.vInt 42), ("permissions", JsValue.vStr "sess")]
    wUser (some "Admin")
    (by decide) rfl (by decide) rfl rfl rfl rfl
    (by simp [wUser, jsTruthy]) (by simp [wUser, jsEqInt, is2FAVerified])

/-- C8 counterexample: when `getUserPermissions` yields `{role: ""}`, the
role field is the empty string — neither absent nor null — yet
`getUserRole` returns `null` rather than that field, contradicting the
claim that the role field is returned exactly. -/
theorem claim8_counterexample :
    dbGetUserRole (fun _ => Except.ok (.vArr [("role", .vStr "")])) (.vInt 1)
      = Except.ok JsValue.vNull
    ∧ jsField (.vArr [("role", .vStr "")]) "role" = JsValue.vStr ""
    ∧ JsValue.vStr "" ≠ JsValue.vNull :=
  ⟨rfl, rfl, by simp⟩

/-- C8 (amended): `getUserRole` is implemented purely by delegating to
`getUserPermissions`: it returns the `role` field of the latter's value
when that field is truthy, and `null` otherwise (so null when the value is
absent/null or the field is null — but a falsy role such as the empty
string also collapses to null); the result depends only on the outcome of
`getUserPermissions`, i.e. role is never queried independently. -/
theorem claim8_role_delegation (gup : JsValue → Except String JsValue)
    (uid : JsValue) (perms : JsValue) (h : gup uid = Except.ok perms) :
    (jsTruthy (optionalRoleField perms) = true →
      dbGetUserRole gup uid = Except.ok (optionalRoleField perms))
    ∧ (jsTruthy (optionalRoleField perms) = false →
      dbGetUserRole gup uid = Except.ok JsValue.vNull)
    ∧ (∀ gup2 : JsValue → Except String JsValue, gup2 uid = gup uid →
        dbGetUserRole gup2 uid = dbGetUserRole gup uid) := by
  refine ⟨fun ht => ?_, fun hf => ?_, fun gup2 hg => ?_⟩
  · unfold dbGetUserRole
    rw [h]
    dsimp only
    rw [if_pos ht]
  · unfold dbGetUserRole
    rw [h]
    dsimp only
    rw [if_neg (by simp [hf])]
  · unfold dbGetUserRole
    rw [hg]

/-- Witness for C8 (amended) at a permission object with a truthy role. -/
theorem claim8_witness :
    (jsTruthy (optionalRoleField (.vArr [("role", .vStr "Admin")])) = true →
      dbGetUserRole (fun _ => Except.ok (.vArr [("role", .vStr "Admin")])) (.vInt 7)
        = Except.ok (optionalRoleField (.vArr [("role", .vStr "Admin")])))
    ∧ (jsTruthy (optionalRoleField (.vArr [("role", .vStr "Admin")])) = false →
      dbGetUserRole (fun _ => Except.ok (.vArr [("role", .vStr "Admin")])) (.vInt 7)
        = Except.ok JsValue.vNull)
    ∧ (∀ gup2 : JsValue → Except String JsValue,
        gup2 (.vInt 7) = Except.ok (.vArr [("role", .vStr "Admin")]) →
        dbGetUserRole gup2 (.vInt 7)
          = dbGetUserRole (fun _ => Except.ok (.vArr [("role", .vStr "Admin")])) (.vInt 7)) :=
  claim8_role_delegation (fun _ => Except.ok (.vArr [("role", .vStr "Admin")]))
    (.vInt 7) (.vArr [("role", .vStr "Admin")]) rfl

end LaravelSession
